import Mathlib

/-!
Verification of the signature-service orchestration layer
(`src/main.py`, `src/enums.py`).

The Python program is shallowly embedded:

* Python `str` payloads are `List Char` (a Python string is a sequence of
  Unicode code points); serial numbers, diagnostic messages and response
  fields stay `String`.
* `bytes` values are `List Nat` with every element `< 256`.
* Exceptions are reified as an error type `PyError`; Python
  `try/except`/`raise` control flow becomes `Except` values.
* The external COM collaborators (certificate store, signing capability)
  are parameters: the store is an `Except`-valued certificate list
  (its `error` case models `oStore.Open`/enumeration raising), the
  signing capability is a function that may fail.
* Resource handling (`pythoncom.CoInitialize`/`CoUninitialize` inside the
  `_com_context` contextmanager) is observed through an event trace.
-/

namespace SignatureService

/-- From `src/enums.py`: `SignatureEnum.TIMER_ATTR_NAME = 0`. -/
def TIMER_ATTR_NAME : Nat := 0

/-- From `src/enums.py`: `SignatureEnum.CONTENT_ENCODING = 1`. -/
def CONTENT_ENCODING : Nat := 1

/-- From `src/enums.py`: `SignatureEnum.CADES_BES = 1`. -/
def CADES_BES : Nat := 1

/-- From `src/enums.py`: `SignatureEnum.CAPICOM_ENCODE_BASE64 = 0`. -/
def CAPICOM_ENCODE_BASE64 : Nat := 0

/-- From `src/enums.py`: `SignatureEnum.CAPICOM_CURRENT_USER_STORE = 2`. -/
def CAPICOM_CURRENT_USER_STORE : Nat := 2

/-- From `src/enums.py`: `SignatureEnum.CAPICOM_STORE_OPEN_MAXIMUM_ALLOWED = 2`. -/
def CAPICOM_STORE_OPEN_MAXIMUM_ALLOWED : Nat := 2

/-- A certificate exposed by the store capability: `element_oStore` in
`main.py` surfaces `SerialNumber` and `SubjectName`. -/
structure Cert where
  serialNumber : String
  subjectName : String
deriving DecidableEq, Repr

/-- Python `str.replace(old, new)` where `old` and `new` are single
characters: every occurrence of `old` is replaced by `new`, i.e. a
character-wise map. -/
def pyReplaceChar (s : List Char) (old new : Char) : List Char :=
  s.map (fun c => if c = old then new else c)

/-- Python `str.replace` of a single character `old` by the empty string:
every occurrence of `old` is deleted, i.e. a filter. -/
def pyDeleteChar (s : List Char) (old : Char) : List Char :=
  s.filter (fun c => c ≠ old)

/-- From `main.py` line 141, the Detached-mode preprocessing:
`str(data).replace(' ', ' ').replace('\n', '').replace('\r', '')`.
`' '` denotes the space character itself, so the first `replace`
substitutes a space for a space. -/
def normalizeDetached (s : List Char) : List Char :=
  pyDeleteChar (pyDeleteChar (pyReplaceChar s ' ' ' ') '\n') '\r'

/-- Python `str.encode` with the ascii codec (`main.py` line 128): the code-point
sequence as bytes when every code point is below 128, otherwise a
`UnicodeEncodeError` (modelled as `none`). -/
def asciiEncode : List Char → Option (List Nat)
  | [] => some []
  | c :: cs =>
      if c.toNat < 128 then (asciiEncode cs).map (fun bs => c.toNat :: bs)
      else none

/-- UTF-8 encoding of one code point (Python `str.encode()` default,
`main.py` line 142). -/
def utf8Char (c : Char) : List Nat :=
  let n := c.toNat
  if n < 0x80 then [n]
  else if n < 0x800 then
    [0xC0 ||| (n >>> 6), 0x80 ||| (n &&& 0x3F)]
  else if n < 0x10000 then
    [0xE0 ||| (n >>> 12), 0x80 ||| ((n >>> 6) &&& 0x3F), 0x80 ||| (n &&& 0x3F)]
  else
    [0xF0 ||| (n >>> 18), 0x80 ||| ((n >>> 12) &&& 0x3F),
     0x80 ||| ((n >>> 6) &&& 0x3F), 0x80 ||| (n &&& 0x3F)]

/-- Python `str.encode()` (UTF-8, the default) on a whole string. -/
def utf8Encode (s : List Char) : List Nat :=
  s.flatMap utf8Char

/-- The standard base64 alphabet used by `base64.b64encode`. -/
def base64Alphabet : List Char :=
  "ABCDEFGHIJKLMNOPQRSTUVWXYZabcdefghijklmnopqrstuvwxyz0123456789+/".toList

/-- Digit lookup into the base64 alphabet. -/
def b64Char (n : Nat) : Char :=
  base64Alphabet.getD n '?'

/-- Encoding by `base64.b64encode` followed by decoding the (pure-ASCII) result back to
a string, as `main.py` does on lines 130–131 and 143–144. -/
def b64Encode : List Nat → List Char
  | [] => []
  | [a] =>
      [b64Char (a >>> 2), b64Char ((a &&& 3) <<< 4), '=', '=']
  | [a, b] =>
      [b64Char (a >>> 2), b64Char (((a &&& 3) <<< 4) ||| (b >>> 4)),
       b64Char ((b &&& 15) <<< 2), '=']
  | a :: b :: c :: rest =>
      b64Char (a >>> 2) :: b64Char (((a &&& 3) <<< 4) ||| (b >>> 4)) ::
      b64Char (((b &&& 15) <<< 2) ||| (c >>> 6)) :: b64Char (c &&& 63) ::
      b64Encode rest

/-- Python `str.lower()`: per-character lower-casing. (Python applies the
full Unicode mapping; for the hexadecimal serial-number strings compared
here only the ASCII range matters, which `Char.toLower` covers.) -/
def pyLower (s : String) : String :=
  ⟨s.data.map Char.toLower⟩

/-- From `main.py` lines 81–87: scan `oStore.Certificates`, first certificate
whose lower-cased serial number equals the lower-cased requested serial
wins. -/
def findCert (certs : List Cert) (serialNumber : String) : Option Cert :=
  certs.find? (fun c => pyLower c.serialNumber == pyLower serialNumber)

/-- The reified Python exceptions that can escape the methods of
`HelperSignature`. `UnicodeEncodeError` is a subclass of `ValueError` in Python;
COM failures (`pywintypes.com_error`) are not. -/
inductive PyError where
  /-- From `main.py` line 90: the not-found `ValueError` with its message. -/
  | valueErrorNotFound (serialNumber : String)
  /-- Raised by the ascii `data.encode` call on a non-ASCII payload (`main.py`
  line 128). Its message text is produced by the Python runtime, not by
  this program, so it is abstracted here. -/
  | unicodeEncodeError
  /-- Any failure raised by the COM collaborators (store open/enumeration,
  `SignCades`), carrying the diagnostic message of the collaborator. -/
  | comError (msg : String)
deriving DecidableEq, Repr

/-- Which reified exceptions an `except ValueError` clause catches:
`ValueError` itself and its subclass `UnicodeEncodeError`. -/
def PyError.isValueError : PyError → Bool
  | .valueErrorNotFound _ => true
  | .unicodeEncodeError => true
  | .comError _ => false

/-- Result of `str(e)` on a reified exception. -/
def PyError.message : PyError → String
  | .valueErrorNotFound sn =>
      "Подходящий сертификат с серийным номером " ++ (sn ++ " не найден!")
  | .unicodeEncodeError => "ascii codec cannot encode character"
  | .comError m => m

/-- Observable resource events of one `signed_data` call. -/
inductive Event where
  /-- Call `pythoncom.CoInitialize()` (`main.py` line 46). -/
  | coInit
  /-- Call `pythoncom.CoUninitialize()` in the `finally` block (line 50). -/
  | coUninit
  /-- Call `oStore.Open(...)` (lines 72–76). -/
  | storeOpen
  /-- Call `oSignedData.SignCades(...)` (lines 113–116). -/
  | capSign
deriving DecidableEq, Repr

/-- Model of `CAdESCOM.CPAttribute` as configured on `main.py` lines 97–100:
a `Name` and a `Value` (the wall-clock instant, abstracted as `Nat`). -/
structure CPAttribute where
  name : Nat
  value : Nat
deriving DecidableEq, Repr

/-- Model of `CAdESCOM.CPSigner` as configured on `main.py` lines 93–103:
the resolved certificate plus the `AuthenticatedAttributes2` collection. -/
structure CPSigner where
  certificate : Cert
  authenticatedAttributes2 : List CPAttribute
deriving DecidableEq, Repr

/-- The external signing capability (`oSignedData.SignCades` with the
fixed parameters `CADES_BES`, detached-flag `False`,
`CAPICOM_ENCODE_BASE64`): given the configured signer and the content
string, it produces a base64 signature string or raises. -/
def SignCapability : Type :=
  CPSigner → List Char → Except String String

/-- The certificate store capability: `oStore.Open` + enumeration either
yields the certificate collection or raises a COM failure. -/
def StoreResult : Type :=
  Except String (List Cert)

/-- Everything observable about one `HelperSignature.signed_data` call:
the returned value or escaped exception, the resource-event trace, and
the `CPSigner` handed to the capability (when one was constructed). -/
structure RunResult where
  result : Except PyError String
  trace : List Event
  signerUsed : Option CPSigner
deriving Repr

/-- Model of `HelperSignature._com_context` (`main.py` lines 42–50):
`CoInitialize`, run the body, `CoUninitialize` in a `finally` block — the
exceptions of the body are already reified as values, so the closing event is
appended on every path. -/
def com_context (body : List Event × α) : List Event × α :=
  (Event.coInit :: body.1 ++ [Event.coUninit], body.2)

/-- Lines 93–103 of `main.py`: bind the signer to the certificate and add
the single signing-time attribute, whose `Value` is `datetime.now()` —
the server clock `now`, no request field. -/
def buildSigner (cert : Cert) (now : Nat) : CPSigner :=
  { certificate := cert
    authenticatedAttributes2 := [{ name := TIMER_ATTR_NAME, value := now }] }

/-- Model of `HelperSignature.signed_data` (`main.py` lines 56–119). `store` and
`cap` are the external collaborators, `now` the server wall clock at the
moment of signing. -/
def signed_data (store : StoreResult) (cap : SignCapability) (now : Nat)
    (data : List Char) (serialNumber : String) : RunResult :=
  match store with
  | .error m =>
      let t := com_context ([Event.storeOpen], ())
      { result := .error (.comError m), trace := t.1, signerUsed := none }
  | .ok certs =>
      match findCert certs serialNumber with
      | none =>
          let t := com_context ([Event.storeOpen], ())
          { result := .error (.valueErrorNotFound serialNumber)
            trace := t.1, signerUsed := none }
      | some oCert =>
          let oSigner := buildSigner oCert now
          match cap oSigner data with
          | .error m =>
              let t := com_context ([Event.storeOpen, Event.capSign], ())
              { result := .error (.comError m), trace := t.1
                signerUsed := some oSigner }
          | .ok sSignedData =>
              let t := com_context ([Event.storeOpen, Event.capSign], ())
              { result := .ok sSignedData, trace := t.1
                signerUsed := some oSigner }

/-- The base64 content prepared by `attached_signed_data` (`main.py`
lines 128–131): ASCII-encode, base64, decode — fails on non-ASCII input. -/
def attached_content (data : List Char) : Option (List Char) :=
  (asciiEncode data).map b64Encode

/-- The base64 content prepared by `unpinned_signed_data` (`main.py`
lines 141–144): whitespace preprocessing, UTF-8 encode, base64, decode. -/
def unpinned_content (data : List Char) : List Char :=
  b64Encode (utf8Encode (normalizeDetached data))

/-- Model of `HelperSignature.attached_signed_data` (`main.py` lines 121–132). -/
def attached_signed_data (store : StoreResult) (cap : SignCapability)
    (now : Nat) (data : List Char) (serialNumber : String) : RunResult :=
  match attached_content data with
  | none =>
      { result := .error .unicodeEncodeError, trace := [], signerUsed := none }
  | some base64_data =>
      signed_data store cap now base64_data serialNumber

/-- Model of `HelperSignature.unpinned_signed_data` (`main.py` lines 134–145). -/
def unpinned_signed_data (store : StoreResult) (cap : SignCapability)
    (now : Nat) (data : List Char) (serialNumber : String) : RunResult :=
  signed_data store cap now (unpinned_content data) serialNumber

/-- An HTTP response of the two POST endpoints: either a `SignResponse`
body (HTTP 200) or an `HTTPException` with a status code and detail. -/
inductive HttpResponse where
  | ok (signed_data : String) (status : String)
  | err (statusCode : Nat) (detail : String)
deriving DecidableEq, Repr

/-- Status code of a response (200 for a success body). -/
def HttpResponse.code : HttpResponse → Nat
  | .ok _ _ => 200
  | .err c _ => c

/-- The `status` field of a success body, when the response is one. -/
def HttpResponse.statusField : HttpResponse → Option String
  | .ok _ s => some s
  | .err _ _ => none

/-- The `detail` field of an error response, when the response is one. -/
def HttpResponse.detailField : HttpResponse → Option String
  | .ok _ _ => none
  | .err _ d => some d

/-- Whether the response is a success body. -/
def HttpResponse.isSuccess : HttpResponse → Bool
  | .ok _ _ => true
  | .err _ _ => false

/-- Endpoint `POST /api/sign/attached/` (`main.py` lines 170–196):
`except ValueError` → HTTP 404, `except Exception` → HTTP 500, success →
`SignResponse` with status `succes`. -/
def sign_attached (store : StoreResult) (cap : SignCapability) (now : Nat)
    (data : List Char) (serialNumber : String) : HttpResponse :=
  match (attached_signed_data store cap now data serialNumber).result with
  | .ok sd => .ok sd "succes"
  | .error e =>
      if e.isValueError then
        .err 404 ("Ошибка при создании прикреплённой подписи: " ++ e.message)
      else
        .err 500 ("Общая ошибка при подписании прикреплённой подписью: " ++ e.message)

/-- Endpoint `POST /api/sign/unpinned/` (`main.py` lines 199–224):
`except ValueError` → HTTP 404, `except Exception` → HTTP 500, success →
`SignResponse` with status `success`. -/
def sign_unpinned (store : StoreResult) (cap : SignCapability) (now : Nat)
    (data : List Char) (serialNumber : String) : HttpResponse :=
  match (unpinned_signed_data store cap now data serialNumber).result with
  | .ok sd => .ok sd "success"
  | .error e =>
      if e.isValueError then
        .err 404 ("Ошибка валидации при подписании откреплённой подписью: " ++ e.message)
      else
        .err 500 ("Ошибка при подписании откреплённой подписью: " ++ e.message)

/-! Spec-side notions used to state the claims. -/

/-- From the spec: "s with every carriage-return and line-feed character
removed". -/
def stripCRLF (s : List Char) : List Char :=
  s.filter (fun c => !(c == '\r' || c == '\n'))

/-- From the spec: "payloads differing only in space, carriage-return and
line-feed characters": both sides agree after deleting those characters. -/
def stripSpaceCRLF (s : List Char) : List Char :=
  s.filter (fun c => !(c == ' ' || c == '\r' || c == '\n'))

/-! Concrete fixtures reused by witnesses and counterexamples. -/

/-- A store holding one certificate with serial number `ab`. -/
def demoStore : StoreResult := .ok [⟨"ab", "Subject"⟩]

/-- A signing capability that always succeeds with signature `SIG`. -/
def demoCap : SignCapability := fun _ _ => .ok "SIG"

/-! Helper lemmas. -/

/-- Replacing a space by a space, as the first `replace` call does, is the
identity. -/
theorem pyReplaceChar_space_self (s : List Char) :
    pyReplaceChar s ' ' ' ' = s := by
  have h : (fun c : Char => if c = ' ' then ' ' else c) = id := by
    funext c
    by_cases hc : c = ' ' <;> simp [hc]
  simp [pyReplaceChar, h]

/-- The Detached-mode preprocessing deletes exactly the carriage-return
and line-feed characters. -/
theorem normalizeDetached_eq_stripCRLF (s : List Char) :
    normalizeDetached s = stripCRLF s := by
  unfold normalizeDetached
  rw [pyReplaceChar_space_self]
  induction s with
  | nil => rfl
  | cons c cs ih =>
      by_cases hr : c = '\r' <;> by_cases hn : c = '\n' <;>
        simp_all [pyDeleteChar, stripCRLF]

/-- Encoding with `str.encode` in the ascii codec fails exactly on strings containing a code
point at or above 128. -/
theorem asciiEncode_eq_none_iff (s : List Char) :
    asciiEncode s = none ↔ s.any (fun c => 128 ≤ c.toNat) = true := by
  induction s with
  | nil => simp [asciiEncode]
  | cons c cs ih =>
      by_cases hc : c.toNat < 128
      · simp [asciiEncode, hc, Option.map_eq_none', ih, Nat.not_le.mpr hc,
          Nat.le_of_not_lt]
      · simp [asciiEncode, hc, Nat.le_of_not_lt hc]

/-- Function `signed_data` never reports a Unicode encoding failure: its only
error kinds are certificate-not-found and COM failures. -/
theorem signed_data_result_ne_unicode (store : StoreResult)
    (cap : SignCapability) (now : Nat) (content : List Char) (sn : String) :
    (signed_data store cap now content sn).result ≠
      .error .unicodeEncodeError := by
  unfold signed_data
  rcases store with m | certs
  · simp
  · cases hfind : findCert certs sn with
    | none => simp [hfind]
    | some oCert =>
        cases hcap : cap (buildSigner oCert now) content with
        | error m => simp [hfind, hcap]
        | ok sig => simp [hfind, hcap]

/-- Deleting carriage returns and line feeds is idempotent. -/
theorem stripCRLF_idem (s : List Char) :
    stripCRLF (stripCRLF s) = stripCRLF s := by
  induction s with
  | nil => rfl
  | cons c cs ih =>
      by_cases h : (c == '\r' || c == '\n') = true <;> simp_all [stripCRLF]

/-! Claim theorems. -/

/-- C8: Detached-mode whitespace normalization is idempotent — for every
string `s`, `normalize(normalize(s)) = normalize(s)`. -/
theorem c8_normalize_idempotent (s : List Char) :
    normalizeDetached (normalizeDetached s) = normalizeDetached s := by
  rw [normalizeDetached_eq_stripCRLF, normalizeDetached_eq_stripCRLF,
    stripCRLF_idem]

/-- C9: the Detached-mode pre-signing content equals
`base64(utf8(s with every CR and LF removed))`; in particular the
replacement of a space by ` ` maps a space to itself, so spaces
(and all other characters such as tabs) are preserved byte-for-byte. -/
theorem c9_detached_content_strips_crlf_only (s : List Char) :
    unpinned_content s = b64Encode (utf8Encode (stripCRLF s)) ∧
      pyReplaceChar s ' ' ' ' = s := by
  refine ⟨?_, pyReplaceChar_space_self s⟩
  unfold unpinned_content
  rw [normalizeDetached_eq_stripCRLF]

/-- C5: certificate resolution is case-insensitive in the serial number —
for any fixed store contents, two serial numbers that agree up to letter
case resolve to the same result. -/
theorem c5_lookup_case_insensitive (certs : List Cert) (s1 s2 : String)
    (h : pyLower s1 = pyLower s2) :
    findCert certs s1 = findCert certs s2 := by
  unfold findCert
  rw [h]

/-- Witness for C5 at a concrete store and serial pair. -/
theorem c5_lookup_case_insensitive_witness :
    pyLower "Ab12" = pyLower "aB12" ∧
      findCert [⟨"AB12", "Subject"⟩] "Ab12" =
        findCert [⟨"AB12", "Subject"⟩] "aB12" :=
  ⟨by decide, c5_lookup_case_insensitive _ _ _ (by decide)⟩

/-- C2 counterexample: `"a b"` and `"ab"` differ only in a space
character, yet their Detached-mode pre-signing contents differ — the
Detached-mode preprocessing keeps spaces (replacing a space by a space
is the identity), so space-insensitivity fails. -/
theorem c2_counterexample :
    stripSpaceCRLF ("a b".toList) = stripSpaceCRLF ("ab".toList) ∧
      unpinned_content ("a b".toList) ≠ unpinned_content ("ab".toList) := by
  decide

/-- C2 (amended): for payloads that differ only in carriage-return and
line-feed characters, the Detached-mode pre-signing content is identical,
while Attached-mode preparation in general produces different content for
such pairs. -/
theorem c2_amended_crlf_insensitivity :
    (∀ s1 s2 : List Char, stripCRLF s1 = stripCRLF s2 →
        unpinned_content s1 = unpinned_content s2) ∧
    (∃ s1 s2 : List Char, stripCRLF s1 = stripCRLF s2 ∧
        attached_content s1 ≠ attached_content s2) := by
  constructor
  · intro s1 s2 h
    unfold unpinned_content
    rw [normalizeDetached_eq_stripCRLF, normalizeDetached_eq_stripCRLF, h]
  · exact ⟨"a\nb".toList, "ab".toList, by decide, by decide⟩

/-- Witness for the amended C2 at a concrete payload pair. -/
theorem c2_amended_crlf_insensitivity_witness :
    stripCRLF ("a\nb".toList) = stripCRLF ("ab".toList) ∧
      unpinned_content ("a\nb".toList) = unpinned_content ("ab".toList) :=
  ⟨by decide, c2_amended_crlf_insensitivity.1 _ _ (by decide)⟩

/-- Case-by-case characterization of the value returned (or exception
raised) by `signed_data`. -/
theorem signed_data_result (store : StoreResult) (cap : SignCapability)
    (now : Nat) (content : List Char) (sn : String) :
    (signed_data store cap now content sn).result =
      match store with
      | .error m => .error (.comError m)
      | .ok certs =>
          match findCert certs sn with
          | none => .error (.valueErrorNotFound sn)
          | some c =>
              match cap (buildSigner c now) content with
              | .error m => .error (.comError m)
              | .ok s => .ok s := by
  unfold signed_data
  rcases store with m | certs
  · rfl
  · cases hfind : findCert certs sn with
    | none => simp [hfind]
    | some c =>
        cases hcap : cap (buildSigner c now) content with
        | error m => simp [hfind, hcap]
        | ok s => simp [hfind, hcap]

/-- The signer handed to the signing capability depends only on the store
contents, the serial number and the server clock — never on the content. -/
theorem signed_data_signerUsed (store : StoreResult) (cap : SignCapability)
    (now : Nat) (content : List Char) (sn : String) :
    (signed_data store cap now content sn).signerUsed =
      match store with
      | .error _ => none
      | .ok certs => (findCert certs sn).map (fun c => buildSigner c now) := by
  unfold signed_data
  rcases store with m | certs
  · rfl
  · cases hfind : findCert certs sn with
    | none => simp [hfind]
    | some c =>
        cases hcap : cap (buildSigner c now) content with
        | error m => simp [hfind, hcap]
        | ok s => simp [hfind, hcap]

/-- C1 counterexample: a request that completes signing successfully on
the attached endpoint carries `status = "succes"`, and one on the
unpinned endpoint carries `status = "success"` — neither is the string
`"succeeded"`. -/
theorem c1_counterexample :
    (sign_attached demoStore demoCap 0 ("hi".toList) "AB").isSuccess = true ∧
      (sign_attached demoStore demoCap 0 ("hi".toList) "AB").statusField =
        some "succes" ∧
      (sign_unpinned demoStore demoCap 0 ("hi".toList) "AB").isSuccess = true ∧
      (sign_unpinned demoStore demoCap 0 ("hi".toList) "AB").statusField =
        some "success" ∧
      "succes" ≠ "succeeded" ∧ "success" ≠ "succeeded" := by
  decide

/-- C1 (amended): every request that completes signing successfully gets
`status = "succes"` from the attached endpoint and `status = "success"`
from the unpinned endpoint (not `"succeeded"`). -/
theorem c1_amended_success_status_strings (store : StoreResult)
    (cap : SignCapability) (now : Nat) (d : List Char) (sn : String) :
    ((sign_attached store cap now d sn).isSuccess = true →
        (sign_attached store cap now d sn).statusField = some "succes") ∧
    ((sign_unpinned store cap now d sn).isSuccess = true →
        (sign_unpinned store cap now d sn).statusField = some "success") := by
  constructor
  · intro h
    cases hr : (attached_signed_data store cap now d sn).result with
    | ok sd => simp [sign_attached, hr, HttpResponse.statusField]
    | error e =>
        exfalso
        by_cases he : e.isValueError = true <;>
          simp [sign_attached, hr, he, HttpResponse.isSuccess] at h
  · intro h
    cases hr : (unpinned_signed_data store cap now d sn).result with
    | ok sd => simp [sign_unpinned, hr, HttpResponse.statusField]
    | error e =>
        exfalso
        by_cases he : e.isValueError = true <;>
          simp [sign_unpinned, hr, he, HttpResponse.isSuccess] at h

/-- Witness for the amended C1 at a concrete successful request. -/
theorem c1_amended_success_status_strings_witness :
    (sign_attached demoStore demoCap 0 ("hi".toList) "AB").isSuccess = true ∧
      (sign_attached demoStore demoCap 0 ("hi".toList) "AB").statusField =
        some "succes" :=
  ⟨by decide,
    (c1_amended_success_status_strings demoStore demoCap 0 ("hi".toList)
      "AB").1 (by decide)⟩

/-- C10: a payload with a character outside the ASCII range makes
`attached_signed_data` fail with `UnicodeEncodeError` before any
certificate lookup (no store session, no signer), the attached endpoint
maps it to HTTP 404, while the unpinned (Detached) pipeline never raises
a Unicode encoding failure for any payload. -/
theorem c10_attached_ascii_only (store : StoreResult) (cap : SignCapability)
    (now : Nat) (d : List Char) (sn : String)
    (h : d.any (fun c => 128 ≤ c.toNat) = true) :
    attached_signed_data store cap now d sn =
      { result := .error .unicodeEncodeError, trace := [],
        signerUsed := none } ∧
    PyError.isValueError .unicodeEncodeError = true ∧
    (sign_attached store cap now d sn).code = 404 ∧
    (∀ d2 : List Char,
        (unpinned_signed_data store cap now d2 sn).result ≠
          .error .unicodeEncodeError) := by
  have hn : attached_content d = none := by
    unfold attached_content
    rw [(asciiEncode_eq_none_iff d).mpr h]
    rfl
  refine ⟨?_, rfl, ?_, ?_⟩
  · unfold attached_signed_data
    rw [hn]
  · simp [sign_attached, attached_signed_data, hn, PyError.isValueError,
      HttpResponse.code]
  · intro d2
    exact signed_data_result_ne_unicode store cap now (unpinned_content d2) sn

/-- Witness for C10 at a concrete non-ASCII payload. -/
theorem c10_attached_ascii_only_witness :
    (("hé".toList).any (fun c => 128 ≤ c.toNat) = true) ∧
      (sign_attached demoStore demoCap 0 ("hé".toList) "ab").code = 404 :=
  ⟨by decide,
    (c10_attached_ascii_only demoStore demoCap 0 ("hé".toList) "ab"
      (by decide)).2.2.1⟩

/-- C4: when no certificate matches the serial number (case-insensitively),
`signed_data` raises exactly the not-found `ValueError` whatever the
content, and the unpinned endpoint answers HTTP 404 with a detail message
that mentions the requested serial number. -/
theorem c4_absent_serial_not_found (certs : List Cert) (cap : SignCapability)
    (now : Nat) (d : List Char) (sn : String)
    (h : findCert certs sn = none) :
    (∀ content : List Char,
        (signed_data (.ok certs) cap now content sn).result =
          .error (.valueErrorNotFound sn)) ∧
    (sign_unpinned (.ok certs) cap now d sn).code = 404 ∧
    (∃ p q : String,
        (sign_unpinned (.ok certs) cap now d sn).detailField =
          some (p ++ (sn ++ q))) := by
  have hres : ∀ content : List Char,
      (signed_data (.ok certs) cap now content sn).result =
        .error (.valueErrorNotFound sn) := by
    intro content
    rw [signed_data_result]
    simp [h]
  refine ⟨hres, ?_, ?_⟩
  · simp [sign_unpinned, unpinned_signed_data, hres, PyError.isValueError,
      HttpResponse.code]
  · refine ⟨"Ошибка валидации при подписании откреплённой подписью: " ++
      "Подходящий сертификат с серийным номером ", " не найден!", ?_⟩
    simp [sign_unpinned, unpinned_signed_data, hres, PyError.isValueError,
      HttpResponse.detailField, PyError.message]
    rw [← String.append_assoc]
    rfl

/-- Witness for C4: serial `ZZZZ` absent, Detached mode, JSON payload. -/
theorem c4_absent_serial_not_found_witness :
    findCert [Cert.mk "ab" "Subject"] "ZZZZ" = none ∧
      (sign_unpinned (.ok [Cert.mk "ab" "Subject"]) demoCap 0
        ("\x7b\"a\": 1\x7d".toList) "ZZZZ").code = 404 :=
  ⟨by decide,
    (c4_absent_serial_not_found [Cert.mk "ab" "Subject"] demoCap 0
      ("\x7b\"a\": 1\x7d".toList) "ZZZZ" (by decide)).2.1⟩

/-- C6: on every exit path of a `signed_data` call — success,
certificate not found, store failure, or signing failure — the COM
session is acquired exactly once at entry and released exactly once, as
the final action before the call returns. -/
theorem c6_session_released_every_path (store : StoreResult)
    (cap : SignCapability) (now : Nat) (content : List Char) (sn : String) :
    (signed_data store cap now content sn).trace.head? = some Event.coInit ∧
    (signed_data store cap now content sn).trace.getLast? =
      some Event.coUninit ∧
    (signed_data store cap now content sn).trace.count Event.coInit = 1 ∧
    (signed_data store cap now content sn).trace.count Event.coUninit = 1 := by
  unfold signed_data
  rcases store with m | certs
  · exact ⟨rfl, rfl, rfl, rfl⟩
  · cases hfind : findCert certs sn with
    | none => simp only [hfind]; exact ⟨rfl, rfl, rfl, rfl⟩
    | some c =>
        cases hcap : cap (buildSigner c now) content with
        | error m => simp only [hfind, hcap]; exact ⟨rfl, rfl, rfl, rfl⟩
        | ok s => simp only [hfind, hcap]; exact ⟨rfl, rfl, rfl, rfl⟩

/-- C7: whenever a signer is constructed, its authenticated-attribute
collection is exactly one attribute — the signing-time attribute
(`TIMER_ATTR_NAME`) valued at the server clock `now` — and the signer
handed to the capability is the same for any two payloads, so no request
field determines the recorded signing timestamp. -/
theorem c7_single_signing_time_attribute (store : StoreResult)
    (cap : SignCapability) (now : Nat) (d : List Char) (sn : String) :
    (∀ s : CPSigner,
        (signed_data store cap now d sn).signerUsed = some s →
          s.authenticatedAttributes2 =
            [{ name := TIMER_ATTR_NAME, value := now }]) ∧
    (∀ d2 : List Char,
        (unpinned_signed_data store cap now d sn).signerUsed =
          (unpinned_signed_data store cap now d2 sn).signerUsed) := by
  constructor
  · intro s hs
    rw [signed_data_signerUsed] at hs
    rcases store with m | certs
    · exact absurd hs (by simp)
    · cases hfind : findCert certs sn with
      | none => simp [hfind] at hs
      | some c =>
          simp only [hfind, Option.map_some', Option.some.injEq] at hs
          rw [← hs]
          rfl
  · intro d2
    unfold unpinned_signed_data
    rw [signed_data_signerUsed, signed_data_signerUsed]

/-- Witness for C7 at a concrete store, serial and clock. -/
theorem c7_single_signing_time_attribute_witness :
    (signed_data demoStore demoCap 5 [] "AB").signerUsed =
        some (buildSigner (Cert.mk "ab" "Subject") 5) ∧
      (buildSigner (Cert.mk "ab" "Subject") 5).authenticatedAttributes2 =
        [{ name := TIMER_ATTR_NAME, value := 5 }] :=
  ⟨by decide,
    (c7_single_signing_time_attribute demoStore demoCap 5 [] "AB").1
      (buildSigner (Cert.mk "ab" "Subject") 5) (by decide)⟩

/-- The status code of the unpinned endpoint, by the kind of outcome of
the underlying signing call. -/
theorem sign_unpinned_code (store : StoreResult) (cap : SignCapability)
    (now : Nat) (d : List Char) (sn : String) :
    (sign_unpinned store cap now d sn).code =
      match (signed_data store cap now (unpinned_content d) sn).result with
      | .ok _ => 200
      | .error e => if e.isValueError = true then 404 else 500 := by
  unfold sign_unpinned unpinned_signed_data
  cases hr : (signed_data store cap now (unpinned_content d) sn).result with
  | ok s => rfl
  | error e =>
      by_cases he : e.isValueError = true <;> simp [he, HttpResponse.code]

/-- The status code of the attached endpoint, by the kind of outcome of
payload encoding and of the underlying signing call. -/
theorem sign_attached_code (store : StoreResult) (cap : SignCapability)
    (now : Nat) (d : List Char) (sn : String) :
    (sign_attached store cap now d sn).code =
      match attached_content d with
      | none => 404
      | some content =>
          match (signed_data store cap now content sn).result with
          | .ok _ => 200
          | .error e => if e.isValueError = true then 404 else 500 := by
  unfold sign_attached attached_signed_data
  cases hc : attached_content d with
  | none => simp [hc, PyError.isValueError, HttpResponse.code]
  | some content =>
      cases hr : (signed_data store cap now content sn).result with
      | ok s => simp [hc, hr, HttpResponse.code]
      | error e =>
          by_cases he : e.isValueError = true <;>
            simp [hc, hr, he, HttpResponse.code]

/-- C3 counterexample: on the attached endpoint a non-ASCII payload is
answered with HTTP 404 even though a matching certificate is in the store
and the lookup never ran (the trace is empty, so the store was never
opened, let alone exhausted) — the 404 path is not reserved for exhausted
lookups. -/
theorem c3_counterexample :
    (sign_attached demoStore demoCap 0 ("hé".toList) "AB").code = 404 ∧
      findCert [Cert.mk "ab" "Subject"] "AB" = some (Cert.mk "ab" "Subject") ∧
      (attached_signed_data demoStore demoCap 0 ("hé".toList) "AB").trace =
        [] := by
  decide

/-- C3 (amended): the HTTP 404 path is taken exactly when the pipeline
raises a `ValueError` — on the unpinned endpoint exactly when the lookup
exhausts the store, on the attached endpoint also when the payload fails
ASCII encoding before any lookup; store-open failures and
signing-capability failures are answered with HTTP 500. -/
theorem c3_amended_404_exactly_on_value_error (certs : List Cert)
    (cap : SignCapability) (now : Nat) (d : List Char) (sn : String) :
    ((sign_unpinned (.ok certs) cap now d sn).code = 404 ↔
        findCert certs sn = none) ∧
    ((sign_attached (.ok certs) cap now d sn).code = 404 ↔
        (attached_content d = none ∨ findCert certs sn = none)) ∧
    (∀ m : String, (sign_unpinned (.error m) cap now d sn).code = 500) ∧
    (∀ m : String, attached_content d ≠ none →
        (sign_attached (.error m) cap now d sn).code = 500) ∧
    (∀ m : String, findCert certs sn ≠ none →
        (sign_unpinned (.ok certs) (fun _ _ => .error m) now d sn).code =
          500) ∧
    (∀ m : String, attached_content d ≠ none → findCert certs sn ≠ none →
        (sign_attached (.ok certs) (fun _ _ => .error m) now d sn).code =
          500) := by
  refine ⟨?_, ?_, ?_, ?_, ?_, ?_⟩
  · rw [sign_unpinned_code, signed_data_result]
    cases hfind : findCert certs sn with
    | none => simp [hfind, PyError.isValueError]
    | some c =>
        cases hcap : cap (buildSigner c now) (unpinned_content d) with
        | error m => simp [hfind, hcap, PyError.isValueError]
        | ok s => simp [hfind, hcap]
  · rw [sign_attached_code]
    cases hc : attached_content d with
    | none => simp [hc]
    | some content =>
        cases hfind : findCert certs sn with
        | none => simp [hc, signed_data_result, hfind, PyError.isValueError]
        | some c =>
            cases hcap : cap (buildSigner c now) content with
            | error m =>
                simp [hc, signed_data_result, hfind, hcap,
                  PyError.isValueError]
            | ok s => simp [hc, signed_data_result, hfind, hcap]
  · intro m
    rw [sign_unpinned_code, signed_data_result]
    simp [PyError.isValueError]
  · intro m hne
    rw [sign_attached_code]
    cases hc : attached_content d with
    | none => exact absurd hc hne
    | some content => simp [hc, signed_data_result, PyError.isValueError]
  · intro m hne
    rw [sign_unpinned_code, signed_data_result]
    cases hfind : findCert certs sn with
    | none => exact absurd hfind hne
    | some c => simp [hfind, PyError.isValueError]
  · intro m hca hne
    rw [sign_attached_code]
    cases hc : attached_content d with
    | none => exact absurd hc hca
    | some content =>
        cases hfind : findCert certs sn with
        | none => exact absurd hfind hne
        | some c =>
            simp [hc, signed_data_result, hfind, PyError.isValueError]

/-- Witness for the amended C3: a signing-capability failure on a
resolvable serial is answered with HTTP 500, not 404. -/
theorem c3_amended_404_exactly_on_value_error_witness :
    findCert [Cert.mk "ab" "Subject"] "AB" ≠ none ∧
      (sign_unpinned (.ok [Cert.mk "ab" "Subject"])
          (fun _ _ => .error "signing failed") 0 ("x".toList) "AB").code =
        500 :=
  ⟨by decide,
    (c3_amended_404_exactly_on_value_error [Cert.mk "ab" "Subject"] demoCap 0
      ("x".toList) "AB").2.2.2.2.1 "signing failed" (by decide)⟩

end SignatureService
